import Mathlib

/-!
# Verification of run_spotify_to_tidal_gui.py

A shallow embedding, in Lean 4, of the Spotify-to-TIDAL GUI wrapper
(src/run_spotify_to_tidal_gui.py), together with theorems settling the
frozen behavioural claims about it.

The embedding covers:
- the Python string helpers the program relies on (str.strip, str.split,
  shlex.split in POSIX mode with whitespace splitting);
- the settings store and secret store wrappers (load_settings, save-related
  effects, get_secret, set_secret), with the keyring backend abstracted as an
  oracle that may be unavailable or may raise;
- the command builder inside App.on_run and the helper App.split-flags;
- the run coordinator: App.on_run (validation, persistence, worker start)
  and App.run-worker (temporary config directory lifecycle, spawn, output
  messages, terminal status classification), with the environment
  (filesystem, spawn outcome, child exit code, stop flag at the wait point)
  made explicit.

Mutable UI state becomes explicit inputs and results; side effects become an
explicit effect list; the filesystem of temporary directories is a list of
abstract directory names (naturals).
-/

namespace S2T

/-! ## Python string primitives -/

/-- Whitespace for Python str.strip and str.split with no argument
(the ASCII part: space, tab, newline, carriage return, vertical tab,
form feed). -/
def is_py_ws (c : Char) : Bool :=
  c == ' ' || c == '\t' || c == '\n' || c == '\r' || c == '\x0b' || c == '\x0c'

/-- Python str.strip with no argument: drop leading and trailing whitespace. -/
def py_strip (s : String) : String :=
  String.mk (((s.data.dropWhile is_py_ws).reverse.dropWhile is_py_ws).reverse)

/-- Core of Python str.split with no argument: split on runs of whitespace,
never producing empty tokens. -/
def py_split_core : List Char → Option (List Char) → List (List Char)
  | [], none => []
  | [], some t => [t]
  | c :: cs, cur =>
    if is_py_ws c then
      match cur with
      | none => py_split_core cs none
      | some t => t :: py_split_core cs none
    else py_split_core cs (some (cur.getD [] ++ [c]))

/-- Python str.split with no argument. -/
def py_split (s : String) : List String :=
  (py_split_core s.data none).map String.mk

/-! ## shlex.split (POSIX mode, whitespace splitting)

Used by App.split-flags (source lines 448 to 457).  The token reader of the
Python shlex module, in POSIX mode with whitespace splitting on and no
comment characters, is a five-state character automaton: outside quotes,
after a backslash outside quotes, inside single quotes, inside double
quotes, and after a backslash inside double quotes.  An unbalanced quote or
a trailing backslash raises ValueError, which the program catches. -/

/-- Whitespace recognised by shlex (its whitespace attribute:
space, tab, carriage return, newline). -/
def is_shlex_ws (c : Char) : Bool :=
  c == ' ' || c == '\t' || c == '\r' || c == '\n'

/-- A character that is special to the shlex token reader: whitespace,
either kind of quote, or the escape character. -/
def shlex_special (c : Char) : Bool :=
  is_shlex_ws c || c == '\'' || c == '"' || c == '\\'

/-- The five states of the shlex token reader. -/
inductive SMode
  | norm
  | esc
  | squote
  | dquote
  | descape
deriving DecidableEq

/-- The shlex token reader: input characters, current state, token under
construction (none when no token has started), tokens finished so far.
Errors are the ValueError cases of shlex: end of input inside a quote or
right after an escape character. -/
def shlex_core : List Char → SMode → Option (List Char) → List (List Char) →
    Except Unit (List (List Char))
  | [], .norm, none, acc => .ok acc
  | [], .norm, some t, acc => .ok (acc ++ [t])
  | [], .esc, _, _ => .error ()
  | [], .squote, _, _ => .error ()
  | [], .dquote, _, _ => .error ()
  | [], .descape, _, _ => .error ()
  | c :: cs, .norm, cur, acc =>
    if is_shlex_ws c then
      match cur with
      | none => shlex_core cs .norm none acc
      | some t => shlex_core cs .norm none (acc ++ [t])
    else if c == '\'' then shlex_core cs .squote (some (cur.getD [])) acc
    else if c == '"' then shlex_core cs .dquote (some (cur.getD [])) acc
    else if c == '\\' then shlex_core cs .esc (some (cur.getD [])) acc
    else shlex_core cs .norm (some (cur.getD [] ++ [c])) acc
  | c :: cs, .esc, cur, acc =>
    shlex_core cs .norm (some (cur.getD [] ++ [c])) acc
  | c :: cs, .squote, cur, acc =>
    if c == '\'' then shlex_core cs .norm cur acc
    else shlex_core cs .squote (some (cur.getD [] ++ [c])) acc
  | c :: cs, .dquote, cur, acc =>
    if c == '"' then shlex_core cs .norm cur acc
    else if c == '\\' then shlex_core cs .descape cur acc
    else shlex_core cs .dquote (some (cur.getD [] ++ [c])) acc
  | c :: cs, .descape, cur, acc =>
    if c == '"' || c == '\\' then shlex_core cs .dquote (some (cur.getD [] ++ [c])) acc
    else shlex_core cs .dquote (some (cur.getD [] ++ ['\\', c])) acc

/-- shlex.split of a string in POSIX mode with whitespace splitting. -/
def shlex_split (s : String) : Except Unit (List String) :=
  (shlex_core s.data .norm none []).map (List.map String.mk)

/-- App.split-flags (source lines 448 to 457): empty input gives no flags;
otherwise shlex.split, falling back to naive whitespace splitting when
shlex raises. -/
def split_flags (s : String) : List String :=
  if s = "" then []
  else
    match shlex_split s with
    | .ok toks => toks
    | .error _ => py_split s

example : split_flags "--dry-run" = ["--dry-run"] := by rfl
example : split_flags "" = [] := by rfl
example : split_flags "--dry-run --no-duplicates" = ["--dry-run", "--no-duplicates"] := by rfl
example : split_flags "a \"b c\"" = ["a", "b c"] := by rfl
example : split_flags "a \"b" = ["a", "\"b"] := by rfl

/-! ## Settings store and secret store -/

/-- Source line 45. -/
def DEFAULT_REDIRECT_URI : String := "http://127.0.0.1:8888/callback"

/-- The flat settings document (source lines 61 to 69): string values for the
six keys the program reads and writes. -/
structure SettingsDoc where
  spotify_client_id : String
  spotify_username : String
  spotify_redirect_uri : String
  tidal_username : String
  last_playlist_url : String
  default_subcommand : String
deriving DecidableEq

/-- The defaults returned by load_settings when no settings file is usable
(source lines 61 to 69). -/
def default_settings : SettingsDoc :=
  { spotify_client_id := ""
    spotify_username := ""
    spotify_redirect_uri := DEFAULT_REDIRECT_URI
    tidal_username := ""
    last_playlist_url := ""
    default_subcommand := "sync" }

/-- How the environment behaves during load_settings: creating the config
directory may raise, the settings file may be absent, reading or decoding
it may raise, or it may parse to a document. -/
inductive LoadOutcome
  | mkdirRaises
  | fileMissing
  | readRaises
  | readOk (d : SettingsDoc)
deriving DecidableEq

/-- load_settings (source lines 53 to 69): any exception inside the try
block is swallowed and the defaults are returned; a missing file also falls
through to the defaults. -/
def load_settings : LoadOutcome → SettingsDoc
  | .mkdirRaises => default_settings
  | .fileMissing => default_settings
  | .readRaises => default_settings
  | .readOk d => d

/-- How the environment behaves during save_settings: creating the config
directory may raise, opening the settings file for writing may raise,
serializing into it may raise, or everything may succeed. -/
inductive SaveOutcome
  | mkdirRaises
  | openRaises
  | writeRaises
  | ok
deriving DecidableEq

/-- save_settings (source lines 71 to 74).  Unlike load_settings, get_secret
and set_secret, this function has no try block: a failure of mkdir, open,
or json.dump propagates to the caller, so its result type is the
exception-carrying one.  On success the settings file holds the document. -/
def save_settings (o : SaveOutcome) (d : SettingsDoc) : Except Unit SettingsDoc :=
  match o with
  | SaveOutcome.mkdirRaises => Except.error ()
  | SaveOutcome.openRaises => Except.error ()
  | SaveOutcome.writeRaises => Except.error ()
  | SaveOutcome.ok => Except.ok d

/-- The keyring backend as an oracle: it may be unavailable (import failed,
source lines 36 to 41), and each call may raise. -/
structure KeyringOracle where
  available : Bool
  getPassword : String → Except Unit (Option String)
  setPassword : String → String → Except Unit Unit

/-- get_secret (source lines 85 to 92): empty string when keyring is
unavailable, when the call raises, or when no value is stored. -/
def get_secret (k : KeyringOracle) (name : String) : String :=
  if k.available = false then ""
  else
    match k.getPassword name with
    | .error _ => ""
    | .ok v => v.getD ""

/-- set_secret (source lines 76 to 83): false when keyring is unavailable
or the call raises, true otherwise. -/
def set_secret (k : KeyringOracle) (name value : String) : Bool :=
  if k.available = false then false
  else
    match k.setPassword name value with
    | .ok _ => true
    | .error _ => false

/-! ## UI state and effects -/

/-- The radio-button action on the Sync tab (source lines 237, 243 to 250). -/
inductive Action
  | sync_playlist_url
  | sync_favorites
  | sync_all_playlists
  | custom
deriving DecidableEq

/-- The raw text of the form fields (and the selected action) at the moment
a button is pressed. -/
structure Fields where
  spotify_client_id : String
  spotify_client_secret : String
  spotify_username : String
  spotify_redirect : String
  tidal_username : String
  tidal_password : String
  action : Action
  playlist_url : String
  subcommand_custom : String
  extra_flags : String
  work_dir : String
deriving DecidableEq

/-- Observable side effects of the UI event handlers, in the order the
source performs them. -/
inductive Effect
  | saveFile (d : SettingsDoc)
  | storeSecret (name value : String)
  | showError (msg : String)
  | showInfo (msg : String)
  | showWarning (msg : String)
  | clearConsole
  | setStatus (msg : String)
  | startWorker (cmd_args : List String)
deriving DecidableEq

/-- App.on_save_settings (source lines 327 to 346): update the settings
document from the stripped field values, write the whole document, store
each non-empty secret field in keyring, then report.  Returns the new
document and the effect list. -/
def on_save_settings (k : KeyringOracle) (s : SettingsDoc) (f : Fields) :
    SettingsDoc × List Effect :=
  let d : SettingsDoc :=
    { s with
      spotify_client_id := py_strip f.spotify_client_id
      spotify_username := py_strip f.spotify_username
      spotify_redirect_uri :=
        if py_strip f.spotify_redirect = "" then DEFAULT_REDIRECT_URI
        else py_strip f.spotify_redirect
      tidal_username := py_strip f.tidal_username
      last_playlist_url := py_strip f.playlist_url }
  let sec := py_strip f.spotify_client_secret
  let pwd := py_strip f.tidal_password
  let ok1 := if sec = "" then true else set_secret k "spotify_client_secret" sec
  let ok2 := if pwd = "" then ok1 else set_secret k "tidal_password" pwd && ok1
  let report :=
    if ok2 || !k.available then Effect.showInfo "Settings saved."
    else Effect.showWarning "Settings saved, but secrets may not have been stored in keyring."
  (d, [Effect.saveFile d]
        ++ (if sec = "" then [] else [Effect.storeSecret "spotify_client_secret" sec])
        ++ (if pwd = "" then [] else [Effect.storeSecret "tidal_password" pwd])
        ++ [report])

/-! ## The command builder and on_run -/

/-- The credential validation sequence at the top of App.on_run (source
lines 387 to 402): the first failing check yields its error message. -/
def validate_creds (k : KeyringOracle) (f : Fields) : Option String :=
  if py_strip f.spotify_client_id = "" then
    some "Spotify Client ID is required."
  else if py_strip f.spotify_client_secret = "" ∧ get_secret k "spotify_client_secret" = "" then
    some "Spotify Client Secret is required."
  else if py_strip f.spotify_username = "" then
    some "Spotify Username is required."
  else if py_strip f.tidal_username = "" then
    some "TIDAL Username is required."
  else if py_strip f.tidal_password = "" ∧ get_secret k "tidal_password" = "" then
    some "TIDAL Password is required."
  else none

/-- The action branch of App.on_run (source lines 408 to 438), taking the
already-stripped playlist reference, the raw custom subcommand field, and
the tokenized extra flags.  The result is none exactly when the playlist
action was chosen without a reference, the one validation failure of the
builder. -/
def build_cmd_args (action : Action) (playlist_url : String)
    (subcommand_custom : String) (extra_flags : List String) :
    Option (List String) :=
  match action with
  | .sync_playlist_url =>
    if playlist_url = "" then none
    else some (["sync", playlist_url] ++ extra_flags)
  | .sync_favorites => some (["favorites"] ++ extra_flags)
  | .sync_all_playlists => some (["playlists"] ++ extra_flags)
  | .custom =>
    let subcommand :=
      if py_strip subcommand_custom = "" then "sync" else py_strip subcommand_custom
    some ((subcommand :: (if playlist_url = "" then [] else [playlist_url])) ++ extra_flags)

/-- Result of one App.on_run call: the settings document after the call, the
stop-requested flag after the call, and the effects performed in order. -/
structure RunResult where
  settings : SettingsDoc
  stop_requested : Bool
  effects : List Effect
deriving DecidableEq

/-- App.on_run (source lines 386 to 446).  Inputs: the keyring oracle, the
current settings document, the current stop-requested flag, whether a
previously spawned child is still running (the poll state of the process
handle), and the form fields.  The handler validates the credentials, saves
the settings, builds the command, and starts the worker thread; it never
consults the process handle, which is why the proc_running input does not
occur in the body. -/
def on_run (k : KeyringOracle) (s : SettingsDoc) (stop : Bool)
    (proc_running : Bool) (f : Fields) : RunResult :=
  match validate_creds k f with
  | some msg => { settings := s, stop_requested := stop, effects := [Effect.showError msg] }
  | none =>
    let saved := on_save_settings k s f
    match build_cmd_args f.action (py_strip f.playlist_url) f.subcommand_custom
        (split_flags (py_strip f.extra_flags)) with
    | none =>
      { settings := saved.1
        stop_requested := stop
        effects := saved.2 ++ [Effect.showError "Please paste a Spotify playlist URL."] }
    | some cmd_args =>
      { settings := saved.1
        stop_requested := false
        effects := saved.2 ++ [Effect.clearConsole, Effect.setStatus "Running…",
          Effect.startWorker cmd_args] }

/-! ## The worker: temporary config lifecycle, spawn, terminal status

App.run-worker (source lines 483 to 537) runs on the background thread.
The filesystem of temporary directories is a list of abstract directory
names; mkdtemp creates a fresh name.  The environment resolves everything
outside the program: whether mkdtemp and the config write succeed, how the
spawn goes, which output lines the reader loop forwards before observing
the stop flag, whether reading raises, the exit code of the child, and the
value of the stop flag at the point where the worker checks it after
waiting for the child. -/

/-- How the Popen call goes (source lines 501 to 509): it spawns, or raises
FileNotFoundError, or raises some other exception. -/
inductive SpawnOutcome
  | ok
  | fileNotFoundErr
  | otherRaise
deriving DecidableEq

/-- Everything the environment decides during one worker run. -/
structure WorkerEnv where
  mkdtemp_ok : Bool
  write_ok : Bool
  spawn : SpawnOutcome
  read_raises : Bool
  forwarded : List String
  rc : Int
  stop_at_wait : Bool
  exc_text : String
deriving DecidableEq

/-- The terminal state of a run invocation, in the vocabulary of the spec
state machine. -/
inductive TermStatus
  | Succeeded
  | Failed
  | Cancelled
deriving DecidableEq

/-- The branch on source lines 517 to 522: the stop flag is checked first,
then the exit code. -/
def classify_exit (stop : Bool) (rc : Int) : TermStatus :=
  if stop then TermStatus.Cancelled
  else if rc = 0 then TermStatus.Succeeded
  else TermStatus.Failed

/-- The message the same branch pushes onto the output queue. -/
def finish_message (stop : Bool) (rc : Int) : String :=
  if stop then "\nProcess terminated by user.\n"
  else if rc = 0 then "\n✓ Done. Exit code 0.\n"
  else "\n✗ Finished with exit code " ++ toString rc ++ ".\n"

/-- A directory name unused in the given filesystem. -/
def fresh_dir (fs : List Nat) : Nat := fs.foldr max 0 + 1

/-- App.build-temp-config (source lines 460 to 481): mkdtemp creates a fresh
directory, then the config file is written into it.  If mkdtemp raises,
nothing is created; if the write raises, the directory has already been
created and remains.  The first component is the returned path or the
exception, the second the filesystem afterwards. -/
def build_temp_config (mk_ok write_ok : Bool) (fs : List Nat) :
    Except Unit Nat × List Nat :=
  if mk_ok = false then (Except.error (), fs)
  else if write_ok then (Except.ok (fresh_dir fs), fresh_dir fs :: fs)
  else (Except.error (), fresh_dir fs :: fs)

/-- The text of the ephemeral credentials document (source lines 468 to
479): secrets come from the fields, falling back to keyring. -/
def temp_config_content (k : KeyringOracle) (f : Fields) : List String :=
  let client_secret :=
    if py_strip f.spotify_client_secret = "" then get_secret k "spotify_client_secret"
    else py_strip f.spotify_client_secret
  let tidal_password :=
    if py_strip f.tidal_password = "" then get_secret k "tidal_password"
    else py_strip f.tidal_password
  [ "spotify:"
  , "  client_id: " ++ py_strip f.spotify_client_id
  , "  client_secret: " ++ client_secret
  , "  username: " ++ py_strip f.spotify_username
  , "  redirect_uri: " ++
      (if py_strip f.spotify_redirect = "" then DEFAULT_REDIRECT_URI
       else py_strip f.spotify_redirect)
  , ""
  , "tidal:"
  , "  username: " ++ py_strip f.tidal_username
  , "  password: " ++ tidal_password
  , "" ]

/-- The space join used for the command banner (string join with a single
space between elements). -/
def join_with_spaces : List String → String
  | [] => ""
  | t :: ts =>
    match ts with
    | [] => t
    | _ => t ++ " " ++ join_with_spaces ts

/-- The full command of source line 492: interpreter, module switch, module
name, then the built arguments. -/
def full_command (exe : String) (cmd_args : List String) : List String :=
  exe :: "-m" :: "spotify_to_tidal" :: cmd_args

/-- The finally block of App.run-worker (source lines 528 to 535): when a
temporary root was recorded and still exists, remove it (rmtree with errors
ignored) and report; when none was recorded, do nothing.  Returns the
filesystem afterwards and the queued messages. -/
def rmtree_cleanup (fs : List Nat) (temp_root : Option Nat) :
    List Nat × List String :=
  match temp_root with
  | none => (fs, [])
  | some d =>
    if d ∈ fs then (fs.erase d, ["Temporary config removed.\n"])
    else (fs, [])

/-- The result of one worker run: the filesystem after the finally block,
every message pushed onto the output queue in order, the working directory
the child was spawned with (none when no child was spawned), the terminal
status of the invocation, and whether the process handle was cleared. -/
structure WorkerResult where
  fs : List Nat
  messages : List String
  spawned_cwd : Option Nat
  status : Option TermStatus
  proc_cleared : Bool
deriving DecidableEq

/-- App.run-worker (source lines 483 to 537).  The work-dir binding from
the Advanced tab (source line 484) is computed and then never used: the
child is spawned with the temporary config directory as its working
directory (source lines 489 and 501 to 509).  The try block builds the
config, spawns, forwards output, waits, and classifies the exit; the
except blocks turn spawn failures and other exceptions into Failed
messages; the finally block removes the temporary directory when one was
recorded, clears the process handle, and resets the status bar. -/
def run_worker (env : WorkerEnv) (f : Fields) (exe : String)
    (cmd_args : List String) (fs0 : List Nat) : WorkerResult :=
  let _work_dir := if py_strip f.work_dir = "" then "." else py_strip f.work_dir
  match build_temp_config env.mkdtemp_ok env.write_ok fs0 with
  | (Except.error _, fs1) =>
    let cl := rmtree_cleanup fs1 none
    { fs := cl.1
      messages := ["\n✗ Unexpected error: " ++ env.exc_text ++ "\n"] ++ cl.2
      spawned_cwd := none
      status := some TermStatus.Failed
      proc_cleared := true }
  | (Except.ok d, fs1) =>
    let banner :=
      [ "> Running: " ++ join_with_spaces (full_command exe cmd_args) ++ "\n"
      , "> Using config: " ++ toString d ++ "/config.yml\n\n" ]
    match env.spawn with
    | SpawnOutcome.fileNotFoundErr =>
      let cl := rmtree_cleanup fs1 (some d)
      { fs := cl.1
        messages := banner ++
          ["\n✗ Error: " ++ env.exc_text ++ "\n" ++
           "Make sure spotify_to_tidal is installed and Python can run it.\n"] ++ cl.2
        spawned_cwd := none
        status := some TermStatus.Failed
        proc_cleared := true }
    | SpawnOutcome.otherRaise =>
      let cl := rmtree_cleanup fs1 (some d)
      { fs := cl.1
        messages := banner ++ ["\n✗ Unexpected error: " ++ env.exc_text ++ "\n"] ++ cl.2
        spawned_cwd := none
        status := some TermStatus.Failed
        proc_cleared := true }
    | SpawnOutcome.ok =>
      let cl := rmtree_cleanup fs1 (some d)
      if env.read_raises then
        { fs := cl.1
          messages := banner ++ env.forwarded ++
            ["\n✗ Unexpected error: " ++ env.exc_text ++ "\n"] ++ cl.2
          spawned_cwd := some d
          status := some TermStatus.Failed
          proc_cleared := true }
      else
        { fs := cl.1
          messages := banner ++ env.forwarded ++
            [finish_message env.stop_at_wait env.rc] ++ cl.2
          spawned_cwd := some d
          status := some (classify_exit env.stop_at_wait env.rc)
          proc_cleared := true }

/-! ## Helper notions and concrete fixtures -/

/-- The needle occurs as a contiguous substring of the haystack. -/
def str_contains (hay needle : String) : Prop :=
  ∃ l r, hay.data = l ++ needle.data ++ r

/-- A keyring backend that is entirely unavailable. -/
def k_down : KeyringOracle :=
  { available := false
    getPassword := fun _ => Except.error ()
    setPassword := fun _ _ => Except.error () }

/-- A healthy keyring backend with a stored value for every name. -/
def k_ok : KeyringOracle :=
  { available := true
    getPassword := fun _ => Except.ok (some "stored-secret")
    setPassword := fun _ _ => Except.ok () }

/-- A form with every field blank, favorites selected. -/
def f_blank : Fields :=
  { spotify_client_id := ""
    spotify_client_secret := ""
    spotify_username := ""
    spotify_redirect := ""
    tidal_username := ""
    tidal_password := ""
    action := Action.sync_favorites
    playlist_url := ""
    subcommand_custom := ""
    extra_flags := ""
    work_dir := "" }

/-- A form that passes every credential check, playlist action selected with
a reference pasted in. -/
def f_valid : Fields :=
  { spotify_client_id := "my-client-id"
    spotify_client_secret := "my-client-secret"
    spotify_username := "spotify-user"
    spotify_redirect := ""
    tidal_username := "tidal-user"
    tidal_password := "tidal-pass"
    action := Action.sync_playlist_url
    playlist_url := "https://open.spotify.com/playlist/abc"
    subcommand_custom := ""
    extra_flags := ""
    work_dir := "" }

/-- An environment in which the run goes through cleanly: config built,
child spawned, output read, exit observed. -/
def env_clean : WorkerEnv :=
  { mkdtemp_ok := true
    write_ok := true
    spawn := SpawnOutcome.ok
    read_raises := false
    forwarded := ["one line of output\n"]
    rc := 0
    stop_at_wait := false
    exc_text := "" }

/-- A worker run robustness fact used alongside the claims: whenever the
config build completed (mkdtemp and the write both succeeded), the finally
block removes the temporary directory on every path, so the filesystem ends
as it began. -/
theorem run_worker_removes_dir_of_completed_build (env : WorkerEnv) (f : Fields)
    (exe : String) (args : List String) (fs0 : List Nat)
    (hmk : env.mkdtemp_ok = true) (hw : env.write_ok = true) :
    (run_worker env f exe args fs0).fs = fs0 := by
  cases hs : env.spawn <;> cases hr : env.read_raises <;>
    simp [run_worker, build_temp_config, rmtree_cleanup, hmk, hw, hs, hr]

/-! ## Claim C8 -/

/-- Counterexample to claim C8 as stated: the store operations include
saving the settings document, and save_settings has no exception handling,
so at a concrete input where the backing store is unavailable (the config
directory cannot be created) the save operation propagates the exception to
its caller instead of degrading to a failure flag. -/
theorem C8_counterexample :
    save_settings SaveOutcome.mkdirRaises default_settings = Except.error () := rfl

/-- Claim C8 amended: the read-side store operations and the secret store
never raise to their callers - when keyring is unavailable, when its calls
raise, or when no value is stored, get_secret returns the empty string and
set_secret returns false, and when the settings file is missing or any
operation of the load raises, load_settings returns the default mapping;
but the settings-store save operation is the exception: save_settings has
no exception handling, and every mkdir, open, or serialization failure
propagates to the caller. -/
theorem C8_degradation_except_save :
    (∀ (k : KeyringOracle) (n : String),
        k.available = false ∨ k.getPassword n = Except.error () ∨
          k.getPassword n = Except.ok none →
        get_secret k n = "") ∧
    (∀ (k : KeyringOracle) (n v : String),
        k.available = false ∨ k.setPassword n v = Except.error () →
        set_secret k n v = false) ∧
    (∀ o : LoadOutcome,
        o = LoadOutcome.mkdirRaises ∨ o = LoadOutcome.fileMissing ∨
          o = LoadOutcome.readRaises →
        load_settings o = default_settings) ∧
    (∀ (o : SaveOutcome) (d : SettingsDoc),
        o ≠ SaveOutcome.ok → save_settings o d = Except.error ()) := by
  refine ⟨?_, ?_, ?_, ?_⟩
  · intro k n h
    rcases h with h | h | h
    · simp [get_secret, h]
    · cases hav : k.available <;> simp [get_secret, hav, h]
    · cases hav : k.available <;> simp [get_secret, hav, h]
  · intro k n v h
    rcases h with h | h
    · simp [set_secret, h]
    · cases hav : k.available <;> simp [set_secret, hav, h]
  · intro o h
    rcases h with h | h | h <;> simp [h, load_settings]
  · intro o d h
    cases o with
    | mkdirRaises => rfl
    | openRaises => rfl
    | writeRaises => rfl
    | ok => exact absurd rfl h

/-- Witness for C8 amended at a concrete dead backend, a concrete load
failure, and a concrete save failure. -/
theorem C8_amended_witness :
    get_secret k_down "spotify_client_secret" = "" ∧
    set_secret k_down "tidal_password" "pw" = false ∧
    load_settings LoadOutcome.readRaises = default_settings ∧
    save_settings SaveOutcome.openRaises default_settings = Except.error () :=
  ⟨C8_degradation_except_save.1 k_down "spotify_client_secret" (Or.inl rfl),
   C8_degradation_except_save.2.1 k_down "tidal_password" "pw" (Or.inl rfl),
   C8_degradation_except_save.2.2.1 LoadOutcome.readRaises (Or.inr (Or.inr rfl)),
   C8_degradation_except_save.2.2.2 SaveOutcome.openRaises default_settings
     (by decide)⟩

/-! ## Claim C3 -/

/-- Claim C3: if the stop-requested flag is set before the child is observed
to exit, the invocation ends Cancelled and never Succeeded, for every exit
code of the child, zero included. -/
theorem C3_stop_flag_forces_cancelled (env : WorkerEnv) (f : Fields)
    (exe : String) (args : List String) (fs0 : List Nat)
    (hmk : env.mkdtemp_ok = true) (hw : env.write_ok = true)
    (hs : env.spawn = SpawnOutcome.ok) (hr : env.read_raises = false)
    (hstop : env.stop_at_wait = true) :
    (run_worker env f exe args fs0).status = some TermStatus.Cancelled ∧
    (run_worker env f exe args fs0).status ≠ some TermStatus.Succeeded := by
  simp [run_worker, build_temp_config, hmk, hw, hs, hr, hstop, classify_exit]

/-- Witness for C3: a cancelled run whose child exited with code zero. -/
theorem C3_witness :
    (run_worker { env_clean with stop_at_wait := true } f_blank "python"
        ["favorites"] []).status = some TermStatus.Cancelled ∧
    (run_worker { env_clean with stop_at_wait := true } f_blank "python"
        ["favorites"] []).status ≠ some TermStatus.Succeeded :=
  C3_stop_flag_forces_cancelled _ f_blank "python" ["favorites"] []
    rfl rfl rfl rfl rfl

/-! ## Claim C5 -/

/-- Claim C5: a child exit with a non-zero code, the stop flag not set,
ends the invocation Failed, and the queued user-visible message contains
the literal exit code; in particular exit code 2 yields a Failed status and
a message containing the literal 2. -/
theorem C5_nonzero_exit_fails_with_code :
    (∀ (env : WorkerEnv) (f : Fields) (exe : String) (args : List String)
        (fs0 : List Nat),
      env.mkdtemp_ok = true → env.write_ok = true →
      env.spawn = SpawnOutcome.ok → env.read_raises = false →
      env.stop_at_wait = false → env.rc ≠ 0 →
      (run_worker env f exe args fs0).status = some TermStatus.Failed ∧
      finish_message false env.rc ∈ (run_worker env f exe args fs0).messages ∧
      str_contains (finish_message false env.rc) (toString env.rc)) ∧
    (classify_exit false 2 = TermStatus.Failed ∧
      str_contains (finish_message false 2) "2") := by
  constructor
  · intro env f exe args fs0 hmk hw hs hr hstop hrc
    refine ⟨?_, ?_, ?_⟩
    · simp [run_worker, build_temp_config, hmk, hw, hs, hr, hstop,
        classify_exit, hrc]
    · simp [run_worker, build_temp_config, hmk, hw, hs, hr, hstop]
    · exact ⟨"\n✗ Finished with exit code ".data, ".\n".data,
        by simp [finish_message, hrc, String.data_append]⟩
  · refine ⟨by simp [classify_exit], ?_⟩
    exact ⟨"\n✗ Finished with exit code ".data, ".\n".data,
      by simp [finish_message, String.data_append]; rfl⟩

/-- Witness for C5 at exit code 2. -/
theorem C5_witness :
    (run_worker { env_clean with rc := 2 } f_blank "python" ["favorites"]
        []).status = some TermStatus.Failed ∧
    finish_message false 2 ∈
      (run_worker { env_clean with rc := 2 } f_blank "python" ["favorites"]
        []).messages ∧
    str_contains (finish_message false 2) (toString (2 : Int)) :=
  C5_nonzero_exit_fails_with_code.1 { env_clean with rc := 2 } f_blank "python"
    ["favorites"] [] rfl rfl rfl rfl rfl (by decide)

/-! ## Claim C2 -/

/-- The environment of the failing input for claim C2: mkdtemp succeeds,
then writing config.yml raises (for instance, the disk fills).  The
exception is caught by the catch-all handler, but the finally block sees no
recorded temporary root, because the assignment on source line 487 never
completed, and skips the deletion. -/
def env_write_fails : WorkerEnv :=
  { mkdtemp_ok := true
    write_ok := false
    spawn := SpawnOutcome.ok
    read_raises := false
    forwarded := []
    rc := 0
    stop_at_wait := false
    exc_text := "No space left on device" }

/-- Claim C2 is the documented intent, and this is the code path that
violates it: when the ephemeral-config write raises after mkdtemp created
the directory, the worker completes (handle cleared, coordinator back to
ready) yet the temporary directory still exists on disk. -/
theorem C2_temp_dir_survives_write_exception :
    (run_worker env_write_fails f_blank "python" ["favorites"] []).proc_cleared
        = true ∧
    (run_worker env_write_fails f_blank "python" ["favorites"] []).fs
        = [fresh_dir []] ∧
    fresh_dir [] ∈ (run_worker env_write_fails f_blank "python" ["favorites"] []).fs := by
  refine ⟨rfl, rfl, ?_⟩
  simp [run_worker, env_write_fails, build_temp_config, rmtree_cleanup]

/-! ## Claim C9 -/

/-- Claim C9: the working-directory field of the Advanced tab has no effect
on the worker, and whenever a child is spawned its working directory is the
freshly created temporary config directory. -/
theorem C9_work_dir_field_has_no_effect (env : WorkerEnv) (f : Fields)
    (exe : String) (args : List String) (fs0 : List Nat) (wd : String) :
    run_worker env { f with work_dir := wd } exe args fs0
        = run_worker env f exe args fs0 ∧
    (env.mkdtemp_ok = true → env.write_ok = true → env.spawn = SpawnOutcome.ok →
      (run_worker env f exe args fs0).spawned_cwd = some (fresh_dir fs0)) := by
  constructor
  · rfl
  · intro hmk hw hs
    cases hr : env.read_raises <;>
      simp [run_worker, build_temp_config, hmk, hw, hs, hr]

/-- Witness for C9: a run whose Advanced tab names a concrete directory
spawns its child in the temporary directory all the same. -/
theorem C9_witness :
    run_worker env_clean { f_blank with work_dir := "/home/user/music" }
        "python" ["favorites"] []
      = run_worker env_clean f_blank "python" ["favorites"] [] ∧
    (run_worker env_clean f_blank "python" ["favorites"] []).spawned_cwd
      = some (fresh_dir []) :=
  have h := C9_work_dir_field_has_no_effect env_clean f_blank "python"
    ["favorites"] [] "/home/user/music"
  ⟨h.1, h.2 rfl rfl rfl⟩

/-! ## Helper lemmas about on_run -/

/-- All five credential checks at the top of App.on_run pass: each required
value is resolvable from the stripped field or, for the two secrets, from
keyring. -/
def cred_ok (k : KeyringOracle) (f : Fields) : Prop :=
  py_strip f.spotify_client_id ≠ "" ∧
  (py_strip f.spotify_client_secret ≠ "" ∨ get_secret k "spotify_client_secret" ≠ "") ∧
  py_strip f.spotify_username ≠ "" ∧
  py_strip f.tidal_username ≠ "" ∧
  (py_strip f.tidal_password ≠ "" ∨ get_secret k "tidal_password" ≠ "")

instance (k : KeyringOracle) (f : Fields) : Decidable (cred_ok k f) := by
  unfold cred_ok; infer_instance

theorem validate_creds_eq_none {k : KeyringOracle} {f : Fields}
    (h : cred_ok k f) : validate_creds k f = none := by
  obtain ⟨h1, h2, h3, h4, h5⟩ := h
  have h2' : ¬(py_strip f.spotify_client_secret = "" ∧
      get_secret k "spotify_client_secret" = "") := by
    rintro ⟨a, b⟩
    rcases h2 with h | h
    · exact h a
    · exact h b
  have h5' : ¬(py_strip f.tidal_password = "" ∧
      get_secret k "tidal_password" = "") := by
    rintro ⟨a, b⟩
    rcases h5 with h | h
    · exact h a
    · exact h b
  simp [validate_creds, h1, h2', h3, h4, h5']

theorem on_save_settings_effects_shape (k : KeyringOracle) (s : SettingsDoc)
    (f : Fields) :
    ∃ b : Bool, (on_save_settings k s f).2 =
      [Effect.saveFile (on_save_settings k s f).1]
        ++ (if py_strip f.spotify_client_secret = "" then []
            else [Effect.storeSecret "spotify_client_secret"
              (py_strip f.spotify_client_secret)])
        ++ (if py_strip f.tidal_password = "" then []
            else [Effect.storeSecret "tidal_password" (py_strip f.tidal_password)])
        ++ [if b then Effect.showInfo "Settings saved."
            else Effect.showWarning
              "Settings saved, but secrets may not have been stored in keyring."] :=
  ⟨_, rfl⟩

theorem startWorker_not_mem_save_effects (k : KeyringOracle) (s : SettingsDoc)
    (f : Fields) (args : List String) :
    Effect.startWorker args ∉ (on_save_settings k s f).2 := by
  obtain ⟨b, hb⟩ := on_save_settings_effects_shape k s f
  rw [hb]
  by_cases h1 : py_strip f.spotify_client_secret = "" <;>
    by_cases h2 : py_strip f.tidal_password = "" <;>
      cases b <;> simp [h1, h2]

theorem saveFile_mem_save_effects (k : KeyringOracle) (s : SettingsDoc)
    (f : Fields) :
    Effect.saveFile (on_save_settings k s f).1 ∈ (on_save_settings k s f).2 := by
  simp [on_save_settings]

/-! ## Claim C10 -/

/-- Claim C10: a run request that passes credential validation persists
state before anything else happens: the effects of App.on_run begin with
exactly the effects of App.on_save_settings (the whole settings document is
written and each non-empty secret field is stored), the resulting settings
document is the saved one, and no worker start occurs within that saved
segment - any spawn comes strictly after the persistence. -/
theorem C10_run_persists_before_spawn (k : KeyringOracle) (s : SettingsDoc)
    (stop proc_running : Bool) (f : Fields) (h : cred_ok k f) :
    ∃ rest,
      (on_run k s stop proc_running f).effects = (on_save_settings k s f).2 ++ rest ∧
      (on_run k s stop proc_running f).settings = (on_save_settings k s f).1 ∧
      Effect.saveFile (on_save_settings k s f).1 ∈ (on_run k s stop proc_running f).effects ∧
      ∀ args, Effect.startWorker args ∉ (on_save_settings k s f).2 := by
  have hv := validate_creds_eq_none h
  unfold on_run
  rw [hv]
  cases hb : build_cmd_args f.action (py_strip f.playlist_url) f.subcommand_custom
      (split_flags (py_strip f.extra_flags)) with
  | none =>
    exact ⟨[Effect.showError "Please paste a Spotify playlist URL."], rfl, rfl,
      List.mem_append_left _ (saveFile_mem_save_effects k s f),
      fun args => startWorker_not_mem_save_effects k s f args⟩
  | some cmd_args =>
    exact ⟨[Effect.clearConsole, Effect.setStatus "Running…",
        Effect.startWorker cmd_args], rfl, rfl,
      List.mem_append_left _ (saveFile_mem_save_effects k s f),
      fun args => startWorker_not_mem_save_effects k s f args⟩

/-- Witness for C10 at a concrete valid form. -/
theorem C10_witness :
    ∃ rest,
      (on_run k_ok default_settings false false f_valid).effects
        = (on_save_settings k_ok default_settings f_valid).2 ++ rest ∧
      (on_run k_ok default_settings false false f_valid).settings
        = (on_save_settings k_ok default_settings f_valid).1 ∧
      Effect.saveFile (on_save_settings k_ok default_settings f_valid).1
        ∈ (on_run k_ok default_settings false false f_valid).effects ∧
      ∀ args, Effect.startWorker args
        ∉ (on_save_settings k_ok default_settings f_valid).2 :=
  C10_run_persists_before_spawn k_ok default_settings false false f_valid (by decide)

/-! ## Claim C1 -/

/-- Counterexample to claim C1 as stated: with a child still running
(poll state true) and a valid form, a further run request is not rejected -
App.on_run starts a new worker, which spawns a second subprocess. -/
theorem C1_counterexample :
    Effect.startWorker ["sync", "https://open.spotify.com/playlist/abc"]
      ∈ (on_run k_ok default_settings false true f_valid).effects := by decide

/-- Claim C1 amended: App.on_run never consults the process handle, so its
behaviour is identical whether or not a previous child is still running,
and whenever validation passes it starts a new worker even while one is
running: concurrent run requests are not rejected. -/
theorem C1_run_request_never_rejected (k : KeyringOracle) (s : SettingsDoc)
    (stop : Bool) (f : Fields) :
    (∀ proc_running proc_running' : Bool,
      on_run k s stop proc_running f = on_run k s stop proc_running' f) ∧
    (cred_ok k f →
      (f.action = Action.sync_playlist_url → py_strip f.playlist_url ≠ "") →
      ∃ args, Effect.startWorker args ∈ (on_run k s stop true f).effects) := by
  constructor
  · intro proc_running proc_running'
    rfl
  · intro hc hurl
    have hv := validate_creds_eq_none hc
    unfold on_run
    rw [hv]
    cases hb : build_cmd_args f.action (py_strip f.playlist_url) f.subcommand_custom
        (split_flags (py_strip f.extra_flags)) with
    | none =>
      exfalso
      cases ha : f.action <;> rw [ha] at hb <;> simp [build_cmd_args] at hb
      exact hurl ha hb
    | some cmd_args =>
      exact ⟨cmd_args, by simp⟩

/-- Witness for C1 amended, at a concrete valid form with a running child. -/
theorem C1_witness :
    (on_run k_ok default_settings false true f_valid
      = on_run k_ok default_settings false false f_valid) ∧
    ∃ args, Effect.startWorker args
      ∈ (on_run k_ok default_settings false true f_valid).effects :=
  have h := C1_run_request_never_rejected k_ok default_settings false f_valid
  ⟨h.1 true false, h.2 (by decide) (by decide)⟩

/-! ## Claim C6 -/

/-- The valid form with the playlist action selected but the reference
field empty. -/
def f_nourl : Fields := { f_valid with playlist_url := "" }

/-- Counterexample to claim C6 as stated: with the playlist action selected
and the reference empty, the error is surfaced, but it is not the only
state change - the settings document has already been written to disk (and
it differs from the document that was on disk), because App.on_run calls
App.on_save_settings before checking the reference. -/
theorem C6_counterexample :
    Effect.showError "Please paste a Spotify playlist URL."
      ∈ (on_run k_ok default_settings false false f_nourl).effects ∧
    Effect.saveFile (on_save_settings k_ok default_settings f_nourl).1
      ∈ (on_run k_ok default_settings false false f_nourl).effects ∧
    (on_save_settings k_ok default_settings f_nourl).1 ≠ default_settings := by
  decide

/-- Claim C6 amended: with the playlist action selected and the reference
empty after stripping, the request fails before any worker is started, so
no subprocess is created and no ephemeral credentials document is written;
but the settings document and the non-empty secret fields have already been
persisted, exactly as by Save Settings, before the error is surfaced - that
persistence is the one state change besides the error. -/
theorem C6_missing_reference_fails_before_spawn (k : KeyringOracle)
    (s : SettingsDoc) (stop proc_running : Bool) (f : Fields)
    (hc : cred_ok k f) (ha : f.action = Action.sync_playlist_url)
    (hu : py_strip f.playlist_url = "") :
    (on_run k s stop proc_running f).effects
      = (on_save_settings k s f).2
          ++ [Effect.showError "Please paste a Spotify playlist URL."] ∧
    (∀ args, Effect.startWorker args ∉ (on_run k s stop proc_running f).effects) ∧
    (on_run k s stop proc_running f).stop_requested = stop := by
  have hv := validate_creds_eq_none hc
  have hb : build_cmd_args f.action (py_strip f.playlist_url) f.subcommand_custom
      (split_flags (py_strip f.extra_flags)) = none := by
    rw [ha]
    simp [build_cmd_args, hu]
  unfold on_run
  rw [hv, hb]
  refine ⟨rfl, ?_, rfl⟩
  intro args hmem
  rcases List.mem_append.mp hmem with h | h
  · exact startWorker_not_mem_save_effects k s f args h
  · simp at h

/-- Witness for C6 amended, at the concrete form with an empty reference. -/
theorem C6_witness :
    (on_run k_ok default_settings false false f_nourl).effects
      = (on_save_settings k_ok default_settings f_nourl).2
          ++ [Effect.showError "Please paste a Spotify playlist URL."] ∧
    (∀ args, Effect.startWorker args
      ∉ (on_run k_ok default_settings false false f_nourl).effects) ∧
    (on_run k_ok default_settings false false f_nourl).stop_requested = false :=
  C6_missing_reference_fails_before_spawn k_ok default_settings false false
    f_nourl (by decide) rfl (by decide)

/-! ## Claim C4 -/

/-- Following the words of the spec (section 4.1): each action tag
deterministically maps to a fixed leading subcommand token; for the custom
action the token is the user-supplied subcommand with the documented
default. -/
def spec_subcommand_token (action : Action) (subcommand_custom : String) : String :=
  match action with
  | Action.sync_playlist_url => "sync"
  | Action.sync_favorites => "favorites"
  | Action.sync_all_playlists => "playlists"
  | Action.custom =>
    if py_strip subcommand_custom = "" then "sync" else py_strip subcommand_custom

/-- Following the words of the spec: the optional user-supplied reference
that follows the subcommand token. -/
def spec_reference_part (action : Action) (playlist_url : String) : List String :=
  match action with
  | Action.sync_playlist_url => [playlist_url]
  | Action.sync_favorites => []
  | Action.sync_all_playlists => []
  | Action.custom => if playlist_url = "" then [] else [playlist_url]

/-- Claim C4: for every valid argument set the built list is the fixed
subcommand token of the action, then the optional user-supplied reference,
then exactly the tokenized extra-flags string; in particular the playlist
action with reference abc123 and extra flags string given as a dry-run flag
builds the three-element list of the scenario. -/
theorem C4_command_shape :
    (∀ (action : Action) (url cs e : String),
      (action = Action.sync_playlist_url → url ≠ "") →
      build_cmd_args action url cs (split_flags e)
        = some (spec_subcommand_token action cs ::
            (spec_reference_part action url ++ split_flags e))) ∧
    build_cmd_args Action.sync_playlist_url "abc123" "" (split_flags "--dry-run")
      = some ["sync", "abc123", "--dry-run"] := by
  constructor
  · intro action url cs e h
    cases action with
    | sync_playlist_url =>
      have hurl := h rfl
      simp [build_cmd_args, spec_subcommand_token, spec_reference_part, hurl]
    | sync_favorites => rfl
    | sync_all_playlists => rfl
    | custom => rfl
  · rfl

/-- Witness for C4 at the favorites action with a dry-run flag. -/
theorem C4_witness :
    build_cmd_args Action.sync_favorites "" "" (split_flags "--dry-run")
      = some (spec_subcommand_token Action.sync_favorites "" ::
          (spec_reference_part Action.sync_favorites "" ++ split_flags "--dry-run")) :=
  C4_command_shape.1 Action.sync_favorites "" "" "--dry-run"
    (fun h => absurd h (by decide))

/-! ## Claim C7: the tokenizer round trip -/

/-- Character-level counterpart of the space join. -/
def join_chars : List (List Char) → List Char
  | [] => []
  | t :: ts =>
    match ts with
    | [] => t
    | _ => t ++ ' ' :: join_chars ts

theorem join_with_spaces_data (ts : List String) :
    (join_with_spaces ts).data = join_chars (ts.map String.data) := by
  induction ts with
  | nil => rfl
  | cons t ts ih =>
    cases ts with
    | nil => rfl
    | cons u us =>
      show ((t ++ " ") ++ join_with_spaces (u :: us)).data = _
      rw [String.data_append, String.data_append, ih]
      simp [join_chars]

theorem shlex_core_eof_token (t : List Char) (acc : List (List Char)) :
    shlex_core [] SMode.norm (some t) acc = Except.ok (acc ++ [t]) := rfl

theorem shlex_core_cons_plain {c : Char} (h : shlex_special c = false)
    (cs : List Char) (cur : Option (List Char)) (acc : List (List Char)) :
    shlex_core (c :: cs) SMode.norm cur acc
      = shlex_core cs SMode.norm (some (cur.getD [] ++ [c])) acc := by
  simp only [shlex_special, Bool.or_eq_false_iff] at h
  obtain ⟨⟨⟨hws, h1⟩, h2⟩, h3⟩ := h
  simp [shlex_core, hws, h1, h2, h3]

theorem shlex_core_cons_space (cs : List Char) (t : List Char)
    (acc : List (List Char)) :
    shlex_core (' ' :: cs) SMode.norm (some t) acc
      = shlex_core cs SMode.norm none (acc ++ [t]) := by
  simp [shlex_core, is_shlex_ws]

theorem shlex_core_plain_run (l : List Char)
    (hl : ∀ c ∈ l, shlex_special c = false) :
    ∀ (rest t : List Char) (acc : List (List Char)),
      shlex_core (l ++ rest) SMode.norm (some t) acc
        = shlex_core rest SMode.norm (some (t ++ l)) acc := by
  induction l with
  | nil => intro rest t acc; simp
  | cons c l ih =>
    intro rest t acc
    rw [List.cons_append, shlex_core_cons_plain (hl c (List.mem_cons_self c l))]
    have := ih (fun d hm => hl d (List.mem_cons_of_mem _ hm)) rest (t ++ [c]) acc
    simpa [List.append_assoc] using this

theorem shlex_core_token (l : List Char) (hne : l ≠ [])
    (hl : ∀ c ∈ l, shlex_special c = false) (rest : List Char)
    (acc : List (List Char)) :
    shlex_core (l ++ rest) SMode.norm none acc
      = shlex_core rest SMode.norm (some l) acc := by
  cases l with
  | nil => exact absurd rfl hne
  | cons c l =>
    rw [List.cons_append, shlex_core_cons_plain (hl c (List.mem_cons_self c l))]
    have := shlex_core_plain_run l (fun d hm => hl d (List.mem_cons_of_mem _ hm))
      rest [c] acc
    simpa using this

theorem shlex_core_join_tokens (ts : List (List Char)) (hne : ts ≠ [])
    (h : ∀ t ∈ ts, t ≠ [] ∧ ∀ c ∈ t, shlex_special c = false) :
    ∀ acc, shlex_core (join_chars ts) SMode.norm none acc = Except.ok (acc ++ ts) := by
  induction ts with
  | nil => exact absurd rfl hne
  | cons t ts ih =>
    intro acc
    obtain ⟨ht_ne, ht_pl⟩ := h t (List.mem_cons_self t ts)
    cases ts with
    | nil =>
      have h1 : join_chars [t] = t ++ [] := by simp [join_chars]
      rw [h1, shlex_core_token t ht_ne ht_pl [] acc, shlex_core_eof_token]
    | cons u us =>
      have h1 : join_chars (t :: u :: us) = t ++ ' ' :: join_chars (u :: us) := rfl
      rw [h1, shlex_core_token t ht_ne ht_pl, shlex_core_cons_space]
      rw [ih (by simp) (fun v hm => h v (List.mem_cons_of_mem _ hm)) (acc ++ [t])]
      simp

theorem join_chars_ne_nil (t : List Char) (ts : List (List Char)) (ht : t ≠ []) :
    join_chars (t :: ts) ≠ [] := by
  cases ts with
  | nil => simpa [join_chars] using ht
  | cons u us => simp [join_chars]

/-- Claim C7: tokenization is idempotent on already-tokenized input.  For
every list of non-empty tokens containing no character special to the
tokenizer (no whitespace, quote, or escape character), tokenizing the
space-joined string reproduces exactly the original token list. -/
theorem C7_tokenize_roundtrip (ts : List String)
    (h : ∀ t ∈ ts, t ≠ "" ∧ ∀ c ∈ t.data, shlex_special c = false) :
    split_flags (join_with_spaces ts) = ts := by
  cases ts with
  | nil => rfl
  | cons t ts =>
    have hmap : ∀ u ∈ (t :: ts).map String.data,
        u ≠ [] ∧ ∀ c ∈ u, shlex_special c = false := by
      intro u hu
      obtain ⟨v, hv, rfl⟩ := List.mem_map.mp hu
      obtain ⟨hv1, hv2⟩ := h v hv
      exact ⟨fun e => hv1 (String.ext e), hv2⟩
    have hhead : t.data ≠ [] := (hmap t.data (by simp)).1
    have hne : join_with_spaces (t :: ts) ≠ "" := by
      intro e
      have : (join_with_spaces (t :: ts)).data = [] := by rw [e]
      rw [join_with_spaces_data] at this
      exact join_chars_ne_nil t.data (ts.map String.data) hhead this
    have hrun := shlex_core_join_tokens ((t :: ts).map String.data) (by simp) hmap []
    rw [split_flags, if_neg hne]
    have hsplit : shlex_split (join_with_spaces (t :: ts))
        = Except.ok ((t :: ts).map String.data |>.map String.mk) := by
      rw [shlex_split, join_with_spaces_data, hrun]
      rfl
    rw [hsplit]
    show ((t :: ts).map String.data |>.map String.mk) = t :: ts
    rw [List.map_map]
    have : (String.mk ∘ String.data) = id := funext fun s => rfl
    rw [this, List.map_id]

/-- Witness for C7 at a concrete pair of plain flags. -/
theorem C7_witness :
    split_flags (join_with_spaces ["--dry-run", "--no-duplicates"])
      = ["--dry-run", "--no-duplicates"] :=
  C7_tokenize_roundtrip ["--dry-run", "--no-duplicates"] (by decide)

end S2T
